import Mathlib

/-!
Verification development for the tuioJSON-Parser repository.

The definitions below are a shallow embedding of `TWFixor.js` (the protocol
stabilizer, first/authoritative revision in the file) and
`lib/tuioJSONParser.js` (the point/gesture lifecycle parser).  JavaScript
numbers are modelled as exact rationals (`ℚ`); `undefined`/`NaN` propagation
is modelled with `Option`; JavaScript objects used as maps are modelled as
association lists; `setTimeout`/`clearTimeout` are modelled as an explicit
list of live timers together with the handle map, and timer firings are
explicit events interleaved with message arrivals (single-threaded event
queue).  The constant `180 / Math.PI` used by the rotation fix is abstracted
as an explicit rational parameter `degPerRad`.
-/

namespace TuioJSON

/-- The `state` field of a touch message: 'start', 'move' or 'end'. -/
inductive PtState
  | start
  | move
  | end'
deriving DecidableEq, Repr

/-- A touch message as consumed by `bufferTouchMessage` (only the fields the
stabilizer inspects: `id` and `state`). -/
structure TouchMsg where
  id : ℕ
  state : PtState
deriving DecidableEq, Repr

/-- The options object of `TWFixor` (defaults as in the source). -/
structure TWOptions where
  throwErrors : Bool := true
  verboseMode : Bool := false
  reanimationTimeOut : ℕ := 20
  mergingTimeout : ℕ := 20
  mergeGestures : Bool := false
  gestureChangeEventDropRate : ℕ := 5
  touchMoveEventDropRate : ℕ := 1
  doBuffering : Bool := true

/-- Association-list lookup for JavaScript objects used as maps. -/
def lookupEntry {α : Type} (l : List (ℕ × α)) (k : ℕ) : Option α :=
  (l.find? (fun p => p.1 = k)).map Prod.snd

/-- Association-list assignment `obj[k] = v`. -/
def setEntry {α : Type} (l : List (ℕ × α)) (k : ℕ) (v : α) : List (ℕ × α) :=
  (k, v) :: l.filter (fun p => p.1 ≠ k)

/-- The mutable state of the touch part of `TWFixor`: `lastTouchState`,
`touchTimeouts` (current `setTimeout` handle per identifier),
`touchMoveDropCounter`, plus the set of live (scheduled, not yet fired and
not cancelled) timers with the buffered end message each will deliver.
Handles start at 1 because a JavaScript timer id is truthy. -/
structure TWTouchState where
  lastTouchState : List (ℕ × PtState) := []
  touchTimeouts : List (ℕ × ℕ) := []
  liveTimers : List (ℕ × TouchMsg) := []
  nextRef : ℕ := 1
  touchMoveDropCounter : List (ℕ × ℕ) := []
deriving DecidableEq, Repr

/-- The 'move' branch of `bufferTouchMessage`: given the drop rate and the
current counter entry for the identifier, returns the new counter entry and
whether the move message is forwarded. -/
def touchMoveStep (rate : ℕ) (c : Option ℕ) : Option ℕ × Bool :=
  if 1 < rate then
    match c with
    | none => (some 0, true)
    | some k =>
      let k2 := (k + 1) % rate
      (some k2, decide (k2 = 0))
  else (c, true)

/-- `bufferTouchMessage` from `TWFixor.js`: returns the updated state and the
list of messages forwarded to `tuioJSONParser.parse` during this call.  An
'end' message is never forwarded directly: it is buffered on a fresh timer
(`setTimeout(..., reanimationTimeOut)`); the timer callback only forwards the
message (it neither clears `lastTouchState` nor `touchTimeouts`). -/
def bufferTouchMessage (o : TWOptions) (s : TWTouchState) (m : TouchMsg) :
    TWTouchState × List TouchMsg :=
  let r :=
    match m.state with
    | .start =>
      if lookupEntry s.lastTouchState m.id = some PtState.end' then
        -- clear any killer timeout; the start itself is not forwarded
        match lookupEntry s.touchTimeouts m.id with
        | some ref => ({ s with liveTimers := s.liveTimers.filter (fun t => t.1 ≠ ref) }, [])
        | none => (s, [])
      else (s, [m])
    | .move =>
      let step := touchMoveStep o.touchMoveEventDropRate (lookupEntry s.touchMoveDropCounter m.id)
      let s' :=
        match step.1 with
        | some k => { s with touchMoveDropCounter := setEntry s.touchMoveDropCounter m.id k }
        | none => s
      (s', if step.2 then [m] else [])
    | .end' =>
      ({ s with
          liveTimers := (s.nextRef, m) :: s.liveTimers,
          touchTimeouts := setEntry s.touchTimeouts m.id s.nextRef,
          nextRef := s.nextRef + 1 }, [])
  ({ r.1 with lastTouchState := setEntry r.1.lastTouchState m.id m.state }, r.2)

/-- Firing of a scheduled reanimation timer: if the handle is still live, the
buffered end message is forwarded to the parser; the callback performs no
other state change (this mirrors the source, whose callback body is only
`tuioJSONParser.parse(message)`). -/
def fireTouchTimer (s : TWTouchState) (ref : ℕ) : TWTouchState × List TouchMsg :=
  match s.liveTimers.find? (fun t => t.1 = ref) with
  | some t => ({ s with liveTimers := s.liveTimers.filter (fun u => u.1 ≠ ref) }, [t.2])
  | none => (s, [])

/-- An event on the single-threaded queue: either a touch message arrival or
the firing of a scheduled timer. -/
inductive TWTouchEvent
  | arrive (m : TouchMsg)
  | fire (ref : ℕ)
deriving DecidableEq, Repr

/-- One step of the touch stabilizer. -/
def twTouchStep (o : TWOptions) (s : TWTouchState) : TWTouchEvent → TWTouchState × List TouchMsg
  | .arrive m => bufferTouchMessage o s m
  | .fire ref => fireTouchTimer s ref

/-- Generic runner: folds a step function over an event list, threading the
state and collecting the outputs of every step in order. -/
def runFold {σ μ ε : Type} (f : σ → ε → σ × List μ) (s : σ) (evs : List ε) : σ × List μ :=
  evs.foldl (fun p ev => ((f p.1 ev).1, p.2 ++ (f p.1 ev).2)) (s, [])

/-- Run of the touch stabilizer on an event queue, collecting all messages
forwarded to the parser in order. -/
def twTouchRun (o : TWOptions) (s : TWTouchState) (evs : List TWTouchEvent) :
    TWTouchState × List TouchMsg :=
  runFold (twTouchStep o) s evs

/-! Gesture fixing (`fixGestureMessage` and its helpers from `TWFixor.js`). -/

/-- The `state` field of a gesture message ('start', 'change', 'end').
Gesture message objects may also lack the field (JavaScript `undefined`),
which is represented by `Option GState` at the use sites. -/
inductive GState
  | start
  | change
  | end'
deriving DecidableEq, Repr

/-- The `gestureType` field of a gesture message.  `gesture` is the compound
type used for merged messages built by `buildMessageFromLastGestureMessages`. -/
inductive GType
  | gesture
  | scale
  | rotate
  | drag
  | custom (s : String)
deriving DecidableEq, Repr

/-- A gesture message.  Fields that a given message may lack in JavaScript
are `Option`-valued (`none` is `undefined`). -/
structure GMsg where
  type : String := "gesture"
  gestureType : GType
  state : Option GState := none
  id : Option ℕ := none
  scale : Option ℚ := none
  rotation : Option ℚ := none
  pivotX : Option ℚ := none
  pivotY : Option ℚ := none
  x : Option ℚ := none
  y : Option ℚ := none
  originX : Option ℚ := none
  originY : Option ℚ := none
  touches : Option (List (Option ℚ × Option ℚ)) := none
deriving DecidableEq, Repr

/-- JavaScript multiplication where either operand may be `undefined`
(producing `NaN`, which then poisons everything: modelled as `none`). -/
def jsMulQ : Option ℚ → Option ℚ → Option ℚ
  | some a, some b => some (a * b)
  | _, _ => none

/-- JavaScript addition with `undefined`/`NaN` propagation. -/
def jsAddQ : Option ℚ → Option ℚ → Option ℚ
  | some a, some b => some (a + b)
  | _, _ => none

/-- Ticker lookup keyed by gesture type (`gestureChangeTicker[gestureType]`). -/
def lookupTicker (l : List (GType × ℕ)) (k : GType) : Option ℕ :=
  (l.find? (fun p => p.1 = k)).map Prod.snd

/-- Ticker assignment. -/
def setTicker (l : List (GType × ℕ)) (k : GType) (v : ℕ) : List (GType × ℕ) :=
  (k, v) :: l.filter (fun p => p.1 ≠ k)

/-- The gesture-side mutable state of `TWFixor`: the two accumulators, the
last scale/rotate messages, the started flags, the merge buffer and flags,
and the gesture change ticker.  All initially `undefined`/`false`/empty. -/
structure GFixState where
  currentRotationInDegrees : Option ℚ := none
  currentScaleFactor : Option ℚ := none
  lastScaleGestureMessage : Option GMsg := none
  scaleHasStarted : Bool := false
  lastRotateGestureMessage : Option GMsg := none
  rotateHasStarted : Bool := false
  bufferedMessage : Option GMsg := none
  mergedMessageStartHasBeenFired : Bool := false
  readyToSendChangeEvents : Bool := false
  gestureChangeTicker : List (GType × ℕ) := []
deriving DecidableEq, Repr

/-- `dropBecauseOfDropRate` from `TWFixor.js`: given the drop rate and the
current ticker entry for the gesture type, returns the new ticker entry and
whether the change message is dropped.  Note that on the very first call the
ticker is initialized to 0 and the function returns `true` (drop). -/
def dropBecauseOfDropRate (rate : ℕ) (ticker : Option ℕ) : Option ℕ × Bool :=
  match ticker with
  | none => (some 0, true)
  | some k => (some (k + 1), decide (k % rate ≠ 0))

/-- `buildMessageFromLastGestureMessages` from `TWFixor.js`.  Returns `none`
when either of the last scale/rotate messages is `null` (in JavaScript the
field accesses would then throw; this path is unreachable whenever the
function is actually invoked by `fixGestureMessage`). -/
def buildMessageFromLastGestureMessages (s : GFixState) (state : Option GState) :
    Option GMsg := do
  let ls ← s.lastScaleGestureMessage
  let lr ← s.lastRotateGestureMessage
  pure
    { type := "gesture"
      gestureType := GType.gesture
      state := state
      scale := ls.scale
      rotation := lr.rotation
      touches := some [(lr.pivotX, lr.pivotY), (lr.pivotX, lr.pivotY)]
      pivotX := lr.pivotX
      pivotY := lr.pivotY }

/-- The teardown executed at the end of `fixGestureMessage` when the incoming
message is an 'end' (the `if (isEnd)` reset block). -/
def resetMergeState (s : GFixState) : GFixState :=
  { s with
      rotateHasStarted := false
      scaleHasStarted := false
      mergedMessageStartHasBeenFired := false
      readyToSendChangeEvents := false
      bufferedMessage := none
      lastScaleGestureMessage := none
      lastRotateGestureMessage := none }

/-- `fixGestureMessage` from `TWFixor.js` (first revision, the one with the
`gestureChangeEventDropRate` option).  `degPerRad` abstracts the constant
`180.0 / Math.PI`.  Returns the updated state and the messages forwarded to
`tuioJSONParser.parse`, in call order. -/
def fixGestureMessage (degPerRad : ℚ) (o : TWOptions) (st : GFixState) (msg : GMsg) :
    GFixState × List GMsg :=
  let message : GMsg := { msg with id := some 1 }
  let isRotate := message.gestureType = GType.rotate
  let isScale := message.gestureType = GType.scale
  let isDrag := message.gestureType = GType.drag
  let isStart := message.state = some GState.start
  let isChange := message.state = some GState.change
  let isEnd := message.state = some GState.end'
  -- first, translate relative radians to absolute degrees in 'rotate' messages
  let rotFixed :=
    if isRotate then
      match message.state with
      | some GState.start => ({ st with currentRotationInDegrees := some 0 }, message)
      | some GState.change =>
        let newRot := jsAddQ st.currentRotationInDegrees (jsMulQ message.rotation (some degPerRad))
        ({ st with currentRotationInDegrees := newRot }, { message with rotation := newRot })
      | some GState.end' => (st, { message with rotation := st.currentRotationInDegrees })
      | none => (st, message)
    else (st, message)
  let st := rotFixed.1
  let message := rotFixed.2
  -- then, translate relative scale factors to absolute ones in 'scale' messages
  let scFixed :=
    if isScale then
      match message.state with
      | some GState.start =>
        ({ st with currentScaleFactor := some 1 }, { message with scale := some 1 })
      | some GState.change | some GState.end' =>
        let ns := jsMulQ st.currentScaleFactor message.scale
        ({ st with currentScaleFactor := ns }, { message with scale := ns })
      | none => (st, { message with scale := st.currentScaleFactor })
    else (st, message)
  let st := scFixed.1
  let message := scFixed.2
  let message :=
    if isDrag then
      { message with x := message.originX, y := message.originY, originX := none, originY := none }
    else message
  if o.mergeGestures then
    -- merged mode: build one compound gesture out of the scale/rotate streams
    if message.gestureType = GType.drag then (st, [])
    else
      let st := if isScale then { st with lastScaleGestureMessage := some message } else st
      let st := if isRotate then { st with lastRotateGestureMessage := some message } else st
      let builtMessageState : Option GState :=
        if st.mergedMessageStartHasBeenFired then some GState.change else none
      let st :=
        if isStart then
          { st with
              scaleHasStarted := st.scaleHasStarted || isScale,
              rotateHasStarted := st.rotateHasStarted || isRotate }
        else st
      let builtMessageState :=
        if isStart then some GState.start
        else if isEnd then some GState.end'
        else builtMessageState
      if st.rotateHasStarted && st.scaleHasStarted then
        let inner :=
          if isRotate && isChange && !st.readyToSendChangeEvents then
            match st.bufferedMessage with
            | some b =>
              ({ st with
                  bufferedMessage := none
                  mergedMessageStartHasBeenFired := true
                  readyToSendChangeEvents := true },
               [{ b with pivotX := message.pivotX, pivotY := message.pivotY }],
               some GState.change)
            | none =>
              ({ st with readyToSendChangeEvents := true }, [], some GState.change)
          else (st, [], builtMessageState)
        let st := inner.1
        let out1 := inner.2.1
        let builtMessageState := inner.2.2
        if builtMessageState = some GState.start then
          let st := { st with bufferedMessage := buildMessageFromLastGestureMessages st (some GState.start) }
          ((if isEnd then resetMergeState st else st), out1)
        else
          let out2 :=
            if st.readyToSendChangeEvents then
              (buildMessageFromLastGestureMessages st builtMessageState).toList
            else []
          ((if isEnd then resetMergeState st else st), out1 ++ out2)
      else
        -- drop all other gesture messages otherwise
        ((if isEnd then resetMergeState st else st), [])
  else
    -- unmerged mode
    if isRotate then
      let pr : Option ℚ × Option ℚ := (message.pivotX, message.pivotY)
      let message := { message with touches := some [pr, pr] }
      match message.state with
      | some GState.start => ({ st with bufferedMessage := some message }, [])
      | some GState.change =>
        let fired : List GMsg :=
          match st.bufferedMessage with
          | some b =>
            [{ b with
                state := some GState.start
                pivotX := message.pivotX
                pivotY := message.pivotY
                touches := some [pr, pr] }]
          | none => []
        let tick := dropBecauseOfDropRate o.gestureChangeEventDropRate
          (lookupTicker st.gestureChangeTicker message.gestureType)
        let st := { st with bufferedMessage := none }
        let st :=
          match tick.1 with
          | some v => { st with gestureChangeTicker := setTicker st.gestureChangeTicker message.gestureType v }
          | none => st
        (st, fired ++ if tick.2 then [] else [message])
      | some GState.end' =>
        -- only the buffer is nulled; the end message itself is still forwarded
        ({ st with bufferedMessage := none }, [message])
      | none => (st, [message])
    else if isScale then
      -- scale events so far do not contain any position information
      let message :=
        { message with
            pivotX := some 0
            pivotY := some 0
            touches := some [(some 0, some 0), (some 0, some 0)] }
      (st, [message])
    else (st, [message])

/-- Run of `fixGestureMessage` over a message list, collecting forwarded
messages in order. -/
def fixGestureRun (degPerRad : ℚ) (o : TWOptions) (st : GFixState) (ms : List GMsg) :
    GFixState × List GMsg :=
  runFold (fixGestureMessage degPerRad o) st ms

/-- A canonical scale 'start' message. -/
def scaleStartMsg : GMsg :=
  { gestureType := GType.scale, state := some GState.start, scale := some 1 }

/-- A canonical scale 'change' message carrying the relative factor `f`. -/
def scaleChangeMsg (f : ℚ) : GMsg :=
  { gestureType := GType.scale, state := some GState.change, scale := some f }

/-- A canonical scale 'end' message (the upstream server sends factor 1). -/
def scaleEndMsg : GMsg :=
  { gestureType := GType.scale, state := some GState.end', scale := some 1 }

/-- A canonical rotate 'start' message (the upstream start carries pivot 0). -/
def rotateStartMsg : GMsg :=
  { gestureType := GType.rotate, state := some GState.start, rotation := some 0,
    pivotX := some 0, pivotY := some 0 }

/-- A canonical rotate 'change' message carrying the relative radian delta
`r` and pivot information. -/
def rotateChangeMsg (r : ℚ) : GMsg :=
  { gestureType := GType.rotate, state := some GState.change, rotation := some r,
    pivotX := some 0, pivotY := some 0 }

/-- A canonical rotate 'end' message. -/
def rotateEndMsg : GMsg :=
  { gestureType := GType.rotate, state := some GState.end' }

/-- The scale 'change' message as forwarded by the unmerged branch, carrying
the accumulated absolute factor `v` and the injected zero pivot. -/
def scaleOutMsg (v : Option ℚ) : GMsg :=
  { gestureType := GType.scale, state := some GState.change, id := some 1, scale := v,
    pivotX := some 0, pivotY := some 0,
    touches := some [(some 0, some 0), (some 0, some 0)] }

/-- The scale 'start' message as forwarded by the unmerged branch. -/
def scaleStartOutMsg : GMsg :=
  { gestureType := GType.scale, state := some GState.start, id := some 1, scale := some 1,
    pivotX := some 0, pivotY := some 0,
    touches := some [(some 0, some 0), (some 0, some 0)] }

/-- The buffered rotate start as released by the unmerged branch on the
first rotate 'change' (state rewritten to 'start', pivot injected). -/
def rotateFirstOutMsg : GMsg :=
  { gestureType := GType.rotate, state := some GState.start, id := some 1,
    rotation := some 0, pivotX := some 0, pivotY := some 0,
    touches := some [(some 0, some 0), (some 0, some 0)] }

/-- A rotate 'change' with zero delta as forwarded by the unmerged branch. -/
def rotateChangeOutMsg : GMsg :=
  { gestureType := GType.rotate, state := some GState.change, id := some 1,
    rotation := some 0, pivotX := some 0, pivotY := some 0,
    touches := some [(some 0, some 0), (some 0, some 0)] }

/-- Whether a message is a rotate 'change'. -/
def isRotateChangeB (m : GMsg) : Bool :=
  m.gestureType == GType.rotate && m.state == some GState.change

/-- Whether a message is a scale 'change'. -/
def isScaleChangeB (m : GMsg) : Bool :=
  m.gestureType == GType.scale && m.state == some GState.change

/-- The number of messages in a list with the given state. -/
def countState (l : List GMsg) (st : GState) : ℕ :=
  l.countP (fun m => m.state == some st)

/-- Running accumulated products `c*f1, c*f1*f2, ...` of a factor list. -/
def runningProds (c : ℚ) : List ℚ → List ℚ
  | [] => []
  | f :: fs => (c * f) :: runningProds (c * f) fs

/-- Merge-episode invariant before the first rotate 'change': both
sub-streams have started, the compound start is buffered (not yet released),
and nothing compound has been forwarded yet. -/
def MergePre (st : GFixState) : Prop :=
  st.scaleHasStarted = true ∧ st.rotateHasStarted = true ∧
  st.mergedMessageStartHasBeenFired = false ∧ st.readyToSendChangeEvents = false ∧
  (∃ b, st.bufferedMessage = some b ∧ b.state = some GState.start ∧
    b.gestureType = GType.gesture) ∧
  st.lastScaleGestureMessage.isSome = true ∧ st.lastRotateGestureMessage.isSome = true

/-- Merge-episode invariant after the first rotate 'change': the compound
start has been released and change events flow. -/
def MergePost (st : GFixState) : Prop :=
  st.scaleHasStarted = true ∧ st.rotateHasStarted = true ∧
  st.mergedMessageStartHasBeenFired = true ∧ st.readyToSendChangeEvents = true ∧
  st.bufferedMessage = none ∧
  st.lastScaleGestureMessage.isSome = true ∧ st.lastRotateGestureMessage.isSome = true

/-- A state from which a merge episode can begin: no sub-stream has started
and no compound start has been fired (the initial state and the state after
an episode teardown both satisfy this). -/
def MergeIdle (st : GFixState) : Prop :=
  st.scaleHasStarted = false ∧ st.rotateHasStarted = false ∧
  st.mergedMessageStartHasBeenFired = false ∧ st.readyToSendChangeEvents = false

/-- A merge episode in which only the scale sub-stream has started. -/
def MergeHalfS (st : GFixState) : Prop :=
  st.scaleHasStarted = true ∧ st.rotateHasStarted = false ∧
  st.mergedMessageStartHasBeenFired = false ∧ st.readyToSendChangeEvents = false ∧
  st.lastScaleGestureMessage.isSome = true

/-- A merge episode in which only the rotate sub-stream has started. -/
def MergeHalfR (st : GFixState) : Prop :=
  st.scaleHasStarted = false ∧ st.rotateHasStarted = true ∧
  st.mergedMessageStartHasBeenFired = false ∧ st.readyToSendChangeEvents = false ∧
  st.lastRotateGestureMessage.isSome = true

/-! The tuioJSON parser (`lib/tuioJSONParser.js`): point lifecycle engine. -/

/-- A point category: the `type` of a point message ('touch' or 'pen'),
indexing the two independent identifier namespaces. -/
inductive PtCat
  | touch
  | pen
deriving DecidableEq, Repr

/-- The JavaScript string of a point category. -/
def catStr : PtCat → String
  | .touch => "touch"
  | .pen => "pen"

/-- A Touch/PenPoint record as stored in `PointCollection`: identifier,
target element (resolved once at start; `none` is `null`), and the six
browser position fields injected by `injectBrowserPositions`. -/
structure Point where
  identifier : ℕ
  target : Option ℕ
  screenX : ℤ := 0
  screenY : ℤ := 0
  pageX : ℤ := 0
  pageY : ℤ := 0
  clientX : ℤ := 0
  clientY : ℤ := 0
deriving DecidableEq, Repr

/-- A loosely typed JavaScript value, as needed to model the view-building
helpers whose call sites pass arguments in the wrong positions.  `undefinedV`
stands for both `undefined` and `null` (they are interchangeable under the
loose comparisons the source performs). -/
inductive JSVal
  | undefinedV
  | bool (b : Bool)
  | str (s : String)
  | num (n : ℤ)
  | pt (p : Point)
  | elem (t : ℕ)
deriving DecidableEq, Repr

/-- JavaScript truthiness. -/
def jsTruthy : JSVal → Bool
  | .undefinedV => false
  | .bool b => b
  | .str s => s ≠ ""
  | .num n => n ≠ 0
  | .pt _ => true
  | .elem _ => true

/-- JavaScript loose equality restricted to the comparisons the source
performs (same-kind comparisons are structural; a DOM element never equals a
number or a string; `null == undefined` holds). -/
def jsEqVal : JSVal → JSVal → Bool
  | .undefinedV, .undefinedV => true
  | .bool a, .bool b => a = b
  | .str a, .str b => a = b
  | .num a, .num b => a = b
  | .pt a, .pt b => a = b
  | .elem a, .elem b => a = b
  | _, _ => false

/-- An element handle or `null` as a JavaScript value. -/
def elemVal : Option ℕ → JSVal
  | some t => .elem t
  | none => .undefinedV

/-- The browser environment and external collaborators: the target resolver
(`document.elementFromPoint`), the event sink result (`dispatchEvent`), and
the window/screen metrics used by the coordinate translation. -/
structure Env where
  resolve : ℤ → ℤ → Option ℕ
  accept : Bool := true
  innerWidth : ℤ := 1000
  innerHeight : ℤ := 1000
  outerWidth : ℤ := 1000
  outerHeight : ℤ := 1000
  screenWidth : ℤ := 1000
  screenHeight : ℤ := 1000
  screenLeft : ℤ := 0
  screenTop : ℤ := 0
  pageXOffset : ℤ := 0
  pageYOffset : ℤ := 0

/-- Per-category event-name configuration (the `touch` / `pen` options
sub-objects). -/
structure PointNames where
  startName : String
  moveName : String
  endName : String
  triggerMouseClick : Bool := true
deriving DecidableEq, Repr

/-- The `dontParse` options sub-object. -/
structure DontParse where
  touch : Bool := false
  gesture : Bool := false
  rotate : Bool := false
  scale : Bool := false
  drag : Bool := false
  pen : Bool := false
  shape : Bool := false
  handwriting : Bool := false
deriving DecidableEq, Repr

/-- The options object of `tuioJSONParser` (defaults as in the source). -/
structure ParserOptions where
  throwErrors : Bool := true
  verboseMode : Bool := false
  useBrowserRelativeCoordinates : Bool := false
  useCoordinateCalibration : Bool := false
  fixStartEventLack : Bool := true
  singlePenMode : Bool := false
  touch : PointNames := { startName := "touchstart", moveName := "touchmove", endName := "touchend" }
  pen : PointNames := { startName := "mousedown", moveName := "mousemove", endName := "mouseup" }
  coordinateOriginX : ℤ := 0
  coordinateOriginY : ℤ := 0
  dontParse : DontParse := {}
deriving DecidableEq, Repr

/-- The per-category name configuration for a category. -/
def catNames (o : ParserOptions) : PtCat → PointNames
  | .touch => o.touch
  | .pen => o.pen

/-- The parser's mutable state: the processing flag, the two point
collections (association lists ordered by ascending identifier, matching the
ascending iteration order of integer-like JavaScript object keys), the
`lastOneWasStartEvent` maps, and `PenTargets` for single-pen mode. -/
structure ParserState where
  processMessages : Bool := true
  pointTouch : List (ℕ × Point) := []
  pointPen : List (ℕ × Point) := []
  lastStartTouch : List (ℕ × Bool) := []
  lastStartPen : List (ℕ × Bool) := []
  penTargets : List (ℕ × Option ℕ) := []
deriving DecidableEq, Repr

/-- The point collection of a category. -/
def collOf (s : ParserState) : PtCat → List (ℕ × Point)
  | .touch => s.pointTouch
  | .pen => s.pointPen

/-- Replace the point collection of a category. -/
def setColl (s : ParserState) : PtCat → List (ℕ × Point) → ParserState
  | .touch, l => { s with pointTouch := l }
  | .pen, l => { s with pointPen := l }

/-- The `lastOneWasStartEvent` map of a category. -/
def lastStartOf (s : ParserState) : PtCat → List (ℕ × Bool)
  | .touch => s.lastStartTouch
  | .pen => s.lastStartPen

/-- Replace the `lastOneWasStartEvent` map of a category. -/
def setLastStart (s : ParserState) : PtCat → List (ℕ × Bool) → ParserState
  | .touch, l => { s with lastStartTouch := l }
  | .pen, l => { s with lastStartPen := l }

/-- Object-key insertion keeping ascending numeric key order (JavaScript
iterates integer-like keys of an object in ascending order). -/
def insertPoint (l : List (ℕ × Point)) (k : ℕ) (p : Point) : List (ℕ × Point) :=
  match l with
  | [] => [(k, p)]
  | (k', p') :: t =>
    if k < k' then (k, p) :: (k', p') :: t
    else if k = k' then (k, p) :: t
    else (k', p') :: insertPoint t k p

/-- `PointCollection[...]` indexed by an arbitrary JavaScript value (the end
path passes an identifier or an element where the category string belongs;
any key other than 'touch'/'pen' finds nothing). -/
def pointCollectionIdx (s : ParserState) : JSVal → Option (List (ℕ × Point))
  | .str "touch" => some s.pointTouch
  | .str "pen" => some s.pointPen
  | _ => none

/-- `getTouches(type, excludeTouchByIdentifier)`.  With a falsy second
argument it returns the cached full list for the key (the cache is rebuilt
on every collection mutation, so it always equals the current collection;
a junk key yields an empty list, as iterating `undefined` yields nothing).
With a truthy second argument it rebuilds the list excluding that key. -/
def getTouches (s : ParserState) (ty exclude : JSVal) : List JSVal :=
  if jsTruthy exclude = false then
    ((pointCollectionIdx s ty).getD []).map (fun p => .pt p.2)
  else
    (((pointCollectionIdx s ty).getD []).filter
      (fun p => jsEqVal (.num p.1) exclude = false)).map (fun p => .pt p.2)

/-- `getTargetTouches(type, element, excludeTouchByIdentifier)`: all points
of the collection at key `ty` whose target loosely equals `element`, minus
the excluded key. -/
def getTargetTouches (s : ParserState) (ty element exclude : JSVal) : List JSVal :=
  (((pointCollectionIdx s ty).getD []).filter
    (fun p => jsEqVal (elemVal p.2.target) element &&
      (!jsTruthy exclude || !jsEqVal (.num p.1) exclude))).map (fun p => .pt p.2)

/-- `getChangedTouches(type, touch)`: a singleton list holding the second
argument (whatever it is — the end path passes only one argument, so the
list holds `undefined`). -/
def getChangedTouches (ty touch : JSVal) : List JSVal :=
  [touch]

/-- A dispatched event record: either a Touch/Pen UI event with its three
views, or a synthesized mouse event. -/
inductive Ev
  | uiEvent (name : String) (touches targetTouches changedTouches : List JSVal)
      (identifier : Option ℕ) (target : Option ℕ)
  | mouseEvent (name : String) (target : Option ℕ)
deriving DecidableEq, Repr

/-- `parseInt` applied to an exact rational: truncation toward zero. -/
def jsParseInt (q : ℚ) : ℤ :=
  q.num.tdiv q.den

/-- `calculatePosition`: percental protocol coordinates to pixels. -/
def calculatePosition (o : ParserOptions) (env : Env) (x y : ℚ) : ℤ × ℤ :=
  if o.useBrowserRelativeCoordinates then
    (jsParseInt ((env.screenWidth : ℚ) * x - env.screenLeft - (env.outerWidth - env.innerWidth)),
     jsParseInt ((env.screenHeight : ℚ) * y - env.screenTop - (env.outerHeight - env.innerHeight)))
  else if o.useCoordinateCalibration then
    (jsParseInt ((env.screenWidth : ℚ) * x - o.coordinateOriginX),
     jsParseInt ((env.screenHeight : ℚ) * y - o.coordinateOriginY))
  else
    (jsParseInt (x * (env.innerWidth : ℚ)), jsParseInt (y * (env.innerHeight : ℚ)))

/-- `calculateBrowserPositions` followed by `injectBrowserPositions` into a
point with the given identifier and target. -/
def mkPoint (env : Env) (identifier : ℕ) (target : Option ℕ) (x y : ℤ) : Point :=
  { identifier := identifier
    target := target
    screenX := x + env.screenLeft
    screenY := y + env.screenTop
    pageX := x + env.pageXOffset
    pageY := y + env.pageYOffset
    clientX := x
    clientY := y }

/-- The `error()` helper: despite the option's name, it only writes to the
console when `throwErrors` is set — it never throws. -/
def errorLog (o : ParserOptions) (msg : String) : List String :=
  if o.throwErrors then [msg] else []

/-- The result of a parser entry point: new state, dispatched events, error
console output, and the JavaScript return value (`bool` or `undefined`). -/
structure ParseResult where
  state : ParserState
  events : List Ev
  logs : List String
  success : JSVal
deriving DecidableEq, Repr

/-- `dispatchCustomPointStart`: creates the point (resolving its target),
stores it, dispatches the start event with the three views, and records that
the last event for this identifier was a start.  Returns the sink's
boolean. -/
def dispatchCustomPointStart (o : ParserOptions) (env : Env) (s : ParserState)
    (cat : PtCat) (identifier : ℕ) (x y : ℤ) : ParserState × List Ev × JSVal :=
  let point := mkPoint env identifier (env.resolve x y) x y
  let s := setColl s cat (insertPoint (collOf s cat) identifier point)
  let ev := Ev.uiEvent (catNames o cat).startName
    (getTouches s (.str (catStr cat)) .undefinedV)
    (getTargetTouches s (.str (catStr cat)) (elemVal point.target) .undefinedV)
    (getChangedTouches (.str (catStr cat)) (.pt point))
    none point.target
  let s := setLastStart s cat (setEntry (lastStartOf s cat) identifier true)
  (s, [ev], .bool env.accept)

/-- `dispatchCustomPointMove`: updates the stored point's positions in place
and dispatches the move event with the three views. -/
def dispatchCustomPointMove (o : ParserOptions) (env : Env) (s : ParserState)
    (cat : PtCat) (identifier : ℕ) (x y : ℤ) : ParserState × List Ev × JSVal :=
  match lookupEntry (collOf s cat) identifier with
  | none => (s, [], .undefinedV)  -- unreachable: the caller only calls with an active record
  | some p0 =>
    let point := mkPoint env identifier p0.target x y
    let s := setColl s cat (insertPoint (collOf s cat) identifier point)
    let ev := Ev.uiEvent (catNames o cat).moveName
      (getTouches s (.str (catStr cat)) .undefinedV)
      (getTargetTouches s (.str (catStr cat)) (elemVal point.target) .undefinedV)
      (getChangedTouches (.str (catStr cat)) (.pt point))
      none point.target
    let s := setLastStart s cat (setEntry (lastStartOf s cat) identifier false)
    (s, [ev], .bool env.accept)

/-- `dispatchCustomPointEnd`: dispatches the end event — note that the three
view helpers are invoked as `getTouches(identifier)`,
`getTargetTouches(target, identifier)` and `getChangedTouches(point)`, i.e.
with the arguments shifted out of their declared positions — optionally
synthesizes the mouse click sequence, and removes the record.  The function
body has no return statement, so its value is `undefined`. -/
def dispatchCustomPointEnd (o : ParserOptions) (s : ParserState)
    (cat : PtCat) (identifier : ℕ) : ParserState × List Ev × JSVal :=
  match lookupEntry (collOf s cat) identifier with
  | none => (s, [], .undefinedV)  -- unreachable: the caller only calls with an active record
  | some p =>
    let ev := Ev.uiEvent (catNames o cat).endName
      (getTouches s (.num identifier) .undefinedV)
      (getTargetTouches s (elemVal p.target) (.num identifier) .undefinedV)
      (getChangedTouches (.pt p) .undefinedV)
      (some identifier) p.target
    let mouse :=
      if (catNames o cat).triggerMouseClick &&
          (lookupEntry (lastStartOf s cat) identifier).getD false then
        [Ev.mouseEvent "mousemove" p.target, Ev.mouseEvent "mousedown" p.target,
         Ev.mouseEvent "mouseup" p.target, Ev.mouseEvent "click" p.target]
      else []
    let s :=
      if (catNames o cat).triggerMouseClick &&
          (lookupEntry (lastStartOf s cat) identifier).getD false then
        setLastStart s cat ((lastStartOf s cat).filter (fun q => q.1 ≠ identifier))
      else s
    let s := setColl s cat ((collOf s cat).filter (fun q => q.1 ≠ identifier))
    (s, ev :: mouse, .undefinedV)

/-- A point message: `{id, state, x, y}` (any field may be missing in a
malformed message; a missing `state` falls through the state switch). -/
structure PointMsg where
  id : ℕ
  state : Option PtState := none
  x : ℚ := 0
  y : ℚ := 0
deriving DecidableEq, Repr

/-- `parseCustomPointMessage`: the start/move/end sequencing logic shared by
touch and pen messages. -/
def parseCustomPointMessage (o : ParserOptions) (env : Env) (s : ParserState)
    (cat : PtCat) (m : PointMsg) : ParseResult :=
  let pos := calculatePosition o env m.x m.y
  match m.state with
  | some PtState.start =>
    if (lookupEntry (collOf s cat) m.id).isSome then
      { state := s, events := [], logs := errorLog o "Duplicate Tuio Event identifier",
        success := .bool false }
    else
      let r := dispatchCustomPointStart o env s cat m.id pos.1 pos.2
      { state := r.1, events := r.2.1, logs := [], success := r.2.2 }
  | some PtState.move =>
    if (lookupEntry (collOf s cat) m.id).isSome then
      let r := dispatchCustomPointMove o env s cat m.id pos.1 pos.2
      { state := r.1, events := r.2.1, logs := [], success := r.2.2 }
    else if o.fixStartEventLack then
      -- trigger a start event artificially, then the move event
      let r1 := dispatchCustomPointStart o env s cat m.id pos.1 pos.2
      let r2 := dispatchCustomPointMove o env r1.1 cat m.id pos.1 pos.2
      { state := r2.1, events := r1.2.1 ++ r2.2.1, logs := [], success := r2.2.2 }
    else
      { state := s, events := []
        logs := errorLog o ("No preluding " ++ catStr cat ++ "start event found for " ++
          catStr cat ++ "move event (Id.:" ++ toString m.id ++ ")")
        success := .bool false }
  | some PtState.end' =>
    if (lookupEntry (collOf s cat) m.id).isSome then
      let r := dispatchCustomPointEnd o s cat m.id
      { state := r.1, events := r.2.1, logs := [], success := r.2.2 }
    else
      { state := s, events := []
        logs := errorLog o ("No preluding " ++ catStr cat ++ "start found for " ++
          catStr cat ++ "end event (Id.:" ++ toString m.id ++ ")")
        success := .bool false }
  | none =>
    -- a message without a recognized state matches no case: success stays false
    { state := s, events := [], logs := [], success := .bool false }

/-- `parseSinglePenMessage`: pen messages interpreted as mouse when
`singlePenMode` is active.  (The removal check compares the event name to
the literal 'end', so with the default names the target entry is never
removed — reproduced faithfully.) -/
def parseSinglePenMessage (o : ParserOptions) (env : Env) (s : ParserState)
    (m : PointMsg) : ParseResult :=
  let pos := calculatePosition o env m.x m.y
  let eventName : Option String :=
    match m.state with
    | some PtState.start => some o.pen.startName
    | some PtState.move => some o.pen.moveName
    | some PtState.end' => some o.pen.endName
    | none => none
  let s :=
    match m.state with
    | some PtState.start =>
      { s with penTargets := setEntry s.penTargets m.id (env.resolve pos.1 pos.2) }
    | _ => s
  let target := (lookupEntry s.penTargets m.id).getD none
  let s :=
    if eventName = some "end" then
      { s with penTargets := s.penTargets.filter (fun q => q.1 ≠ m.id) }
    else s
  { state := s, events := [Ev.mouseEvent (eventName.getD "undefined") target], logs := [],
    success := .bool env.accept }

/-- An incoming parser message: one of the point kinds the lifecycle claims
exercise, or a message of some other/unknown `type` (which matches no case
of the parser's switch). -/
inductive PMsg
  | touch (m : PointMsg)
  | pen (m : PointMsg)
  | other (ty : String)
deriving DecidableEq, Repr

/-- `tuioJSONParser.parse`: the public entry point.  Returns `false` without
doing anything when processing has been stopped; an unknown message type
matches no case of the switch, so `success` remains `false`. -/
def parse (o : ParserOptions) (env : Env) (s : ParserState) (m : PMsg) : ParseResult :=
  if s.processMessages then
    match m with
    | .touch pm =>
      if o.dontParse.touch then
        { state := s, events := [], logs := [], success := .bool true }
      else parseCustomPointMessage o env s .touch pm
    | .pen pm =>
      if o.dontParse.pen then
        { state := s, events := [], logs := [], success := .bool true }
      else if o.singlePenMode then parseSinglePenMessage o env s pm
      else parseCustomPointMessage o env s .pen pm
    | .other _ =>
      { state := s, events := [], logs := [], success := .bool false }
  else
    { state := s, events := [], logs := [], success := .bool false }

/-- `tuioJSONParser.stop()`. -/
def stop (s : ParserState) : ParserState :=
  { s with processMessages := false }

/-- `tuioJSONParser.continue()`. -/
def continue' (s : ParserState) : ParserState :=
  { s with processMessages := true }

/-- `TWFixor.stop()`: delegates to the parser's `stop()`. -/
def fixorStop (s : ParserState) : ParserState :=
  stop s

/-- `TWFixor.continue()`: its body is the bare expression statement
`tuioJSONParser.continue;` — a property access without a call — so it does
not change the parser's state. -/
def fixorContinue (s : ParserState) : ParserState :=
  s

/-- A sample environment: every position resolves to element 5, the sink
accepts every event. -/
def sampleEnv : Env :=
  { resolve := fun _ _ => some 5 }

/-- A sample active point with identifier 1 on element 5. -/
def samplePoint1 : Point :=
  mkPoint sampleEnv 1 (some 5) 10 10

/-- A second sample active point with identifier 2 on element 5. -/
def samplePoint2 : Point :=
  mkPoint sampleEnv 2 (some 5) 20 20

/-- A sample parser state with two active touch points (ids 1 and 2). -/
def sampleState : ParserState :=
  { pointTouch := [(1, samplePoint1), (2, samplePoint2)] }

/-- A sample drag 'change' message with origin coordinates. -/
def dragChangeMsg : GMsg :=
  { gestureType := GType.drag, state := some GState.change, originX := some 1,
    originY := some 2 }

/-- A sample parser state with one active pen point (id 1). -/
def samplePenState : ParserState :=
  { pointPen := [(1, samplePoint1)] }

/-- The `dontParse` flag of a point category. -/
def dontParseCat (o : ParserOptions) : PtCat → Bool
  | .touch => o.dontParse.touch
  | .pen => o.dontParse.pen

/-- A point message wrapped as the parser message of its category. -/
def pointMsgOf : PtCat → PointMsg → PMsg
  | .touch, m => .touch m
  | .pen, m => .pen m

/-! Helper lemmas about the runner and the association-list maps. -/

theorem foldl_out_acc {σ μ ε : Type} (f : σ → ε → σ × List μ) :
    ∀ (evs : List ε) (s : σ) (acc : List μ),
      evs.foldl (fun p ev => ((f p.1 ev).1, p.2 ++ (f p.1 ev).2)) (s, acc)
        = ((runFold f s evs).1, acc ++ (runFold f s evs).2) := by
  intro evs
  induction evs with
  | nil => intro s acc; simp [runFold]
  | cons e t ih =>
    intro s acc
    simp only [runFold, List.foldl_cons]
    rw [ih (f s e).1 (acc ++ (f s e).2), ih (f s e).1 ([] ++ (f s e).2)]
    simp

theorem runFold_cons {σ μ ε : Type} (f : σ → ε → σ × List μ) (s : σ) (e : ε) (t : List ε) :
    runFold f s (e :: t)
      = ((runFold f (f s e).1 t).1, (f s e).2 ++ (runFold f (f s e).1 t).2) := by
  simp only [runFold, List.foldl_cons]
  rw [foldl_out_acc f t (f s e).1 ([] ++ (f s e).2)]
  simp [runFold]

theorem runFold_append {σ μ ε : Type} (f : σ → ε → σ × List μ) :
    ∀ (a b : List ε) (s : σ),
      runFold f s (a ++ b)
        = ((runFold f (runFold f s a).1 b).1,
            (runFold f s a).2 ++ (runFold f (runFold f s a).1 b).2) := by
  intro a
  induction a with
  | nil => intro b s; simp [runFold]
  | cons e t ih =>
    intro b s
    rw [List.cons_append, runFold_cons, runFold_cons, ih b (f s e).1]
    simp

theorem runFold_singleton {σ μ ε : Type} (f : σ → ε → σ × List μ) (s : σ) (e : ε) :
    runFold f s [e] = f s e := by
  simp [runFold]

theorem lookupEntry_setEntry_self {α : Type} (l : List (ℕ × α)) (k : ℕ) (v : α) :
    lookupEntry (setEntry l k v) k = some v := by
  simp [lookupEntry, setEntry]

theorem find_filter_ne {α : Type} (k k' : ℕ) (h : k' ≠ k) :
    ∀ l : List (ℕ × α),
      List.find? (fun p => p.1 = k') (l.filter (fun p => p.1 ≠ k))
        = List.find? (fun p => p.1 = k') l := by
  intro l
  induction l with
  | nil => simp
  | cons a t ih =>
    by_cases ha : a.1 = k
    · rw [List.filter_cons_of_neg, List.find?_cons_of_neg, ih]
      · simp [ha, Ne.symm h]
      · simp [ha]
    · by_cases hb : a.1 = k'
      · rw [List.filter_cons_of_pos, List.find?_cons_of_pos, List.find?_cons_of_pos]
        · simp [hb]
        · simp [hb]
        · simp [ha]
      · rw [List.filter_cons_of_pos, List.find?_cons_of_neg, List.find?_cons_of_neg, ih]
        · simp [hb]
        · simp [hb]
        · simp [ha]

theorem lookupEntry_setEntry_ne {α : Type} (l : List (ℕ × α)) (k k' : ℕ) (v : α)
    (h : k' ≠ k) : lookupEntry (setEntry l k v) k' = lookupEntry l k' := by
  simp only [lookupEntry, setEntry]
  rw [List.find?_cons_of_neg, find_filter_ne k k' h]
  simp [Ne.symm h]

theorem lookupEntry_nil {α : Type} (k : ℕ) : lookupEntry ([] : List (ℕ × α)) k = none := rfl

/-! Claim C1: flicker absorption. -/

/-- C1 counterexample: the second half of the claim fails.  After a start, an
end, and the firing of the reanimation timer (which forwards the end), a new
start for the same identifier is NOT forwarded: the whole trace forwards only
the original start and the end, although the claim requires the late start to
produce a fresh start event.  The timer callback never clears
`lastTouchState`, so the start is swallowed by the flicker branch. -/
theorem C1_counterexample :
    (twTouchRun {} {} [TWTouchEvent.arrive ⟨1, PtState.start⟩,
        TWTouchEvent.arrive ⟨1, PtState.end'⟩, TWTouchEvent.fire 1,
        TWTouchEvent.arrive ⟨1, PtState.start⟩]).2
      = [⟨1, PtState.start⟩, ⟨1, PtState.end'⟩] := by
  decide

/-- C1 (amended): an 'end' message is never forwarded synchronously (it only
schedules a timer); a 'start' whose identifier's last recorded state is 'end'
is always dropped and cancels the identifier's current pending timer —
regardless of whether the timer has already fired, so flicker within the
timeout is fully absorbed, but the first start after a forwarded end is
swallowed too; a 'start' in any other situation is forwarded unchanged. -/
theorem C1_flicker_amended (o : TWOptions) (s : TWTouchState) (i : ℕ) :
    (lookupEntry s.lastTouchState i = some PtState.end' →
      (bufferTouchMessage o s ⟨i, PtState.start⟩).2 = [] ∧
      (∀ ref, lookupEntry s.touchTimeouts i = some ref →
        ∀ t ∈ (bufferTouchMessage o s ⟨i, PtState.start⟩).1.liveTimers, t.1 ≠ ref)) ∧
    (lookupEntry s.lastTouchState i ≠ some PtState.end' →
      (bufferTouchMessage o s ⟨i, PtState.start⟩).2 = [⟨i, PtState.start⟩]) ∧
    (bufferTouchMessage o s ⟨i, PtState.end'⟩).2 = [] := by
  refine ⟨fun h => ?_, fun h => ?_, ?_⟩
  · constructor
    · simp [bufferTouchMessage, h]
      cases lookupEntry s.touchTimeouts i <;> simp
    · intro ref href t ht
      simp only [bufferTouchMessage, h, if_pos, href] at ht
      simp at ht
      exact ht.2
  · simp [bufferTouchMessage, h]
  · simp [bufferTouchMessage]

/-- C1 witness: the amended theorem applied to a concrete post-end state —
the start is dropped and the pending timer for its identifier is cancelled. -/
theorem C1_flicker_amended_witness :
    (bufferTouchMessage {} ⟨[(1, PtState.end')], [(1, 1)], [(1, ⟨1, PtState.end'⟩)], 2, []⟩
      ⟨1, PtState.start⟩).2 = [] ∧
    (∀ t ∈ (bufferTouchMessage {} ⟨[(1, PtState.end')], [(1, 1)], [(1, ⟨1, PtState.end'⟩)], 2, []⟩
      ⟨1, PtState.start⟩).1.liveTimers, t.1 ≠ 1) := by
  have h := C1_flicker_amended {}
    ⟨[(1, PtState.end')], [(1, 1)], [(1, ⟨1, PtState.end'⟩)], 2, []⟩ 1
  exact ⟨(h.1 (by decide)).1, (h.1 (by decide)).2 1 (by decide)⟩

/-! Claim C4: end-event views. -/

/-- C4: the code contradicts the claim.  With two active touch points (ids 1
and 2, same target), the end event dispatched for id 1 carries an empty
"all points" list, an empty "same target" list and a changed list holding
`undefined` — although the full list built from the collection does contain
both points, so the emptiness comes from the view helpers being invoked with
their arguments in the wrong positions.  The orphan-end half of the claim
holds: an end without an active record logs, dispatches nothing, fails. -/
theorem C4_end_views_bug :
    (parse {} sampleEnv sampleState (PMsg.touch { id := 1, state := some PtState.end' })).events
      = [Ev.uiEvent "touchend" [] [] [JSVal.undefinedV] (some 1) (some 5)] ∧
    getTouches sampleState (JSVal.str "touch") JSVal.undefinedV
      = [JSVal.pt samplePoint1, JSVal.pt samplePoint2] ∧
    parse {} sampleEnv {} (PMsg.touch { id := 9, state := some PtState.end' })
      = { state := {}, events := [],
          logs := ["No preluding touchstart found for touchend event (Id.:9)"],
          success := JSVal.bool false } := by
  decide

/-! Claim C6: malformed-message handling. -/

/-- C6: the code contradicts the claim (and the option's own documentation).
A message with an unknown type or without a state field is dropped silently —
not logged — and the `throwErrors` flag never raises anything: for a
duplicate-identifier start it merely toggles whether the error string is
written to the console, the result being otherwise identical under both
settings. -/
theorem C6_error_only_logs (b : Bool) :
    parse { throwErrors := b } sampleEnv {} (PMsg.other "foo")
      = { state := {}, events := [], logs := [], success := JSVal.bool false } ∧
    parse { throwErrors := b } sampleEnv {} (PMsg.touch { id := 7 })
      = { state := {}, events := [], logs := [], success := JSVal.bool false } ∧
    parse { throwErrors := b } sampleEnv sampleState
        (PMsg.touch { id := 1, state := some PtState.start })
      = { state := sampleState, events := [],
          logs := if b then ["Duplicate Tuio Event identifier"] else [],
          success := JSVal.bool false } := by
  cases b <;> exact ⟨by decide, by decide, by decide⟩

/-! Claim C7: drag passthrough under merging. -/

/-- C7 counterexample: with `mergeGestures` enabled, a drag gesture message
is not forwarded to the parser at all (the merge branch returns before any
forwarding), contradicting the claim that drag messages pass through. -/
theorem C7_counterexample :
    (fixGestureMessage 60 { mergeGestures := true } {} dragChangeMsg).2 = [] := by
  decide

/-- C7 (amended): when `mergeGestures` is enabled, drag gesture messages are
silently dropped with no state change; drag messages are forwarded (with the
origin coordinates moved into x/y) only when `mergeGestures` is disabled. -/
theorem C7_drag_amended (d : ℚ) (o : TWOptions) (st : GFixState) (m : GMsg)
    (hd : m.gestureType = GType.drag) :
    (o.mergeGestures = true → fixGestureMessage d o st m = (st, [])) ∧
    (o.mergeGestures = false →
      fixGestureMessage d o st m
        = (st,
            [{ m with id := some 1, x := m.originX, y := m.originY, originX := none, originY := none }])) := by
  constructor <;> intro hm <;> simp [fixGestureMessage, hd, hm]

/-- C7 witness: the amended theorem applied to the sample drag message. -/
theorem C7_drag_amended_witness :
    fixGestureMessage 60 { mergeGestures := true } {} dragChangeMsg = ({}, []) ∧
    fixGestureMessage 60 {} {} dragChangeMsg
      = ({},
          [{ dragChangeMsg with id := some 1, x := some 1, y := some 2, originX := none, originY := none }]) := by
  refine ⟨(C7_drag_amended 60 { mergeGestures := true } {} dragChangeMsg rfl).1 rfl, ?_⟩
  have h := (C7_drag_amended 60 {} {} dragChangeMsg rfl).2 rfl
  simpa [dragChangeMsg] using h

/-! Claim C8: duplicate-start atomicity. -/

/-- C8 counterexample: the claim fails for the pen category when
singlePenMode is enabled.  A pen 'start' whose identifier has an active pen
record is not rejected: parseSinglePenMessage performs no duplicate check,
so an event is dispatched, the PenTargets entry is overwritten (the state
changes), and parse returns the sink boolean true — not a failure. -/
theorem C8_counterexample :
    (parse { singlePenMode := true } sampleEnv samplePenState
        (PMsg.pen { id := 1, state := some PtState.start })).success = JSVal.bool true ∧
    (parse { singlePenMode := true } sampleEnv samplePenState
        (PMsg.pen { id := 1, state := some PtState.start })).events ≠ [] ∧
    (parse { singlePenMode := true } sampleEnv samplePenState
        (PMsg.pen { id := 1, state := some PtState.start })).state ≠ samplePenState := by
  decide

/-- C8 (amended): a 'start' whose identifier already has an active record in
its category (touch or pen) is rejected with no state change, no dispatched
event, and a false result whenever the message is routed through the common
point parser — always for touch, and for pen only when singlePenMode is
disabled (only the error console line is produced, gated by throwErrors).
With singlePenMode enabled, pen messages bypass the duplicate check
entirely. -/
theorem C8_duplicate_start (o : ParserOptions) (env : Env) (s : ParserState)
    (cat : PtCat) (m : PointMsg)
    (hproc : s.processMessages = true) (hdp : dontParseCat o cat = false)
    (hsp : cat = PtCat.pen → o.singlePenMode = false)
    (hst : m.state = some PtState.start)
    (hdup : (lookupEntry (collOf s cat) m.id).isSome = true) :
    parse o env s (pointMsgOf cat m)
      = { state := s, events := [],
          logs := errorLog o "Duplicate Tuio Event identifier",
          success := JSVal.bool false } := by
  cases cat
  · simp only [dontParseCat] at hdp
    simp only [collOf] at hdup
    simp [parse, pointMsgOf, hproc, hdp, parseCustomPointMessage, hst, collOf, hdup]
  · simp only [dontParseCat] at hdp
    simp only [collOf] at hdup
    have hsp' := hsp rfl
    simp [parse, pointMsgOf, hproc, hdp, hsp', parseCustomPointMessage, hst, collOf, hdup]

/-- C8 witness: the amended theorem applied to a pen duplicate start with
singlePenMode disabled. -/
theorem C8_duplicate_start_witness :
    parse {} sampleEnv samplePenState (PMsg.pen { id := 1, state := some PtState.start })
      = { state := samplePenState, events := [],
          logs := ["Duplicate Tuio Event identifier"],
          success := JSVal.bool false } := by
  have h := C8_duplicate_start {} sampleEnv samplePenState PtCat.pen
    { id := 1, state := some PtState.start } rfl rfl (fun _ => rfl) rfl (by decide)
  simpa [errorLog, pointMsgOf] using h

/-! Claim C9: end messages return undefined. -/

/-- C9 counterexample: the claim fails for pen 'end' messages when
singlePenMode is enabled: even with an active pen record, parse returns the
sink boolean (true — truthy), not undefined, because parseSinglePenMessage
returns the dispatch result. -/
theorem C9_counterexample :
    (parse { singlePenMode := true } sampleEnv samplePenState
        (PMsg.pen { id := 1, state := some PtState.end' })).success = JSVal.bool true ∧
    jsTruthy (parse { singlePenMode := true } sampleEnv samplePenState
        (PMsg.pen { id := 1, state := some PtState.end' })).success = true := by
  decide

/-- C9 (amended): for a touch 'end' with an active record, and for a pen
'end' with an active record when singlePenMode is disabled, parse returns
undefined (falsy) even though the end event is dispatched:
dispatchCustomPointEnd has no return statement.  With singlePenMode enabled
a pen 'end' instead returns the sink boolean. -/
theorem C9_end_returns_undefined (o : ParserOptions) (env : Env) (s : ParserState)
    (cat : PtCat) (m : PointMsg)
    (hproc : s.processMessages = true) (hdp : dontParseCat o cat = false)
    (hsp : cat = PtCat.pen → o.singlePenMode = false)
    (hst : m.state = some PtState.end')
    (hact : (lookupEntry (collOf s cat) m.id).isSome = true) :
    (parse o env s (pointMsgOf cat m)).success = JSVal.undefinedV ∧
    (parse o env s (pointMsgOf cat m)).events ≠ [] ∧
    jsTruthy (parse o env s (pointMsgOf cat m)).success = false := by
  rcases Option.isSome_iff_exists.mp hact with ⟨p, hp⟩
  cases cat
  · simp only [dontParseCat] at hdp
    simp only [collOf] at hact hp
    refine ⟨?_, ?_, ?_⟩ <;>
      simp [parse, pointMsgOf, hproc, hdp, parseCustomPointMessage, hst, collOf, hact,
        dispatchCustomPointEnd, hp, jsTruthy]
  · simp only [dontParseCat] at hdp
    simp only [collOf] at hact hp
    have hsp' := hsp rfl
    refine ⟨?_, ?_, ?_⟩ <;>
      simp [parse, pointMsgOf, hproc, hdp, hsp', parseCustomPointMessage, hst, collOf, hact,
        dispatchCustomPointEnd, hp, jsTruthy]

/-- C9 witness: the amended theorem applied to a pen end with an active
record and singlePenMode disabled. -/
theorem C9_end_returns_undefined_witness :
    (parse {} sampleEnv samplePenState (PMsg.pen { id := 1, state := some PtState.end' })).success
      = JSVal.undefinedV ∧
    (parse {} sampleEnv samplePenState (PMsg.pen { id := 1, state := some PtState.end' })).events
      ≠ [] := by
  have h := C9_end_returns_undefined {} sampleEnv samplePenState PtCat.pen
    { id := 1, state := some PtState.end' } rfl rfl (fun _ => rfl) rfl (by decide)
  exact ⟨h.1, h.2.1⟩

/-! Claim C10: stop and continue. -/

/-- C10: after `stop()` the parser returns `false` and dispatches nothing for
every message; `TWFixor.continue()` does not resume processing (it reads the
parser's `continue` property without invoking it), while calling the
parser's own `continue()` sets the processing flag back to true. -/
theorem C10_stop_continue (o : ParserOptions) (env : Env) (s : ParserState) (m : PMsg) :
    parse o env (stop s) m
      = { state := stop s, events := [], logs := [], success := JSVal.bool false } ∧
    fixorContinue (stop s) = stop s ∧
    parse o env (fixorContinue (stop s)) m
      = { state := stop s, events := [], logs := [], success := JSVal.bool false } ∧
    (continue' s).processMessages = true ∧
    fixorStop s = stop s := by
  refine ⟨?_, rfl, ?_, rfl, rfl⟩ <;> simp [parse, stop, fixorContinue]

/-! Claim C5: decimation. -/

theorem bufferTouch_move_out (o : TWOptions) (s : TWTouchState) (i : ℕ) :
    (bufferTouchMessage o s ⟨i, PtState.move⟩).2
      = if (touchMoveStep o.touchMoveEventDropRate (lookupEntry s.touchMoveDropCounter i)).2
        then [⟨i, PtState.move⟩] else [] := by
  simp only [bufferTouchMessage]

theorem touchMove_all_forwarded (N i : ℕ) (h : N ≤ 1) :
    ∀ n, (twTouchRun { touchMoveEventDropRate := N } {}
        (List.replicate n (TWTouchEvent.arrive ⟨i, PtState.move⟩))).2
      = List.replicate n ⟨i, PtState.move⟩ := by
  intro n
  induction n with
  | zero => rfl
  | succ n ih =>
    rw [List.replicate_succ' n, List.replicate_succ' n]
    unfold twTouchRun at *
    rw [runFold_append, ih]
    simp [runFold, twTouchStep, bufferTouch_move_out, touchMoveStep, Nat.not_lt.mpr h]

theorem touchMoveRunState (N i : ℕ) (h : 1 < N) :
    ∀ n, 1 ≤ n →
      (twTouchRun { touchMoveEventDropRate := N } {}
          (List.replicate n (TWTouchEvent.arrive ⟨i, PtState.move⟩))).1
        = { lastTouchState := [(i, PtState.move)], touchMoveDropCounter := [(i, (n - 1) % N)] } := by
  intro n
  induction n with
  | zero => intro hz; omega
  | succ n ih =>
    intro _
    have hmod : ∀ m : ℕ, (m % N + 1) % N = (m + 1) % N := by
      intro m
      conv_rhs => rw [Nat.add_mod m 1 N, Nat.mod_eq_of_lt h]
    rcases Nat.eq_zero_or_pos n with hn | hn
    · subst hn
      simp [twTouchRun, runFold, twTouchStep, bufferTouchMessage, touchMoveStep,
        lookupEntry, setEntry, h, Nat.mod_eq_of_lt (show 0 < N by omega)]
    · rw [List.replicate_succ' n]
      unfold twTouchRun at *
      rw [runFold_append, ih hn]
      simp only [runFold, List.foldl_cons, List.foldl_nil, twTouchStep, bufferTouchMessage,
        touchMoveStep, h, if_true]
      simp [lookupEntry, setEntry, List.find?, List.filter, hmod, Nat.sub_add_cancel hn]

theorem rotRunState (d : ℚ) (N : ℕ) :
    ∀ j, 1 ≤ j →
      (fixGestureRun d { gestureChangeEventDropRate := N } {}
          (rotateStartMsg :: List.replicate j (rotateChangeMsg 0))).1
        = { currentRotationInDegrees := some 0, gestureChangeTicker := [(GType.rotate, j - 1)] } := by
  intro j
  induction j with
  | zero => intro hz; omega
  | succ j ih =>
    intro _
    rcases Nat.eq_zero_or_pos j with hj | hj
    · subst hj
      simp [fixGestureRun, runFold, fixGestureMessage, rotateStartMsg, rotateChangeMsg,
        jsAddQ, jsMulQ, lookupTicker, setTicker, dropBecauseOfDropRate]
    · rw [List.replicate_succ' j, ← List.cons_append]
      unfold fixGestureRun at *
      rw [runFold_append, ih hj]
      simp [runFold, fixGestureMessage, rotateChangeMsg, jsAddQ, jsMulQ, lookupTicker,
        setTicker, dropBecauseOfDropRate, List.find?, List.filter, Nat.sub_add_cancel hj]

/-- C5 counterexample: with `gestureChangeEventDropRate = 1` the claim says
every gesture 'change' message is forwarded, but the first rotate 'change'
is dropped (`dropBecauseOfDropRate` returns true on its first call): the
trace start-change forwards no change message at all. -/
theorem C5_counterexample :
    countState (fixGestureRun 60 { gestureChangeEventDropRate := 1 } {}
      [rotateStartMsg, rotateChangeMsg 0]).2 GState.change = 0 := by
  decide

/-- C5 (amended): touch moves are decimated as claimed — the (j+1)-st move
for an identifier is forwarded exactly when the rate is at most 1 or j is a
multiple of the rate, so exactly one of every N consecutive moves (the
first, N+1-st, ...) passes, and rate 1 forwards all.  Rotate 'change'
messages (the only gesture messages the unmerged mode decimates) are
phase-shifted: the first change releases the buffered start but is itself
always dropped; afterwards the (j+1)-st change is forwarded exactly when
j-1 is a multiple of the rate (the 2nd, N+2-nd, ... changes), so with rate
1 every change except the first passes — not all of them. -/
theorem C5_decimation_amended (N i j : ℕ) (d : ℚ) :
    ((twTouchRun { touchMoveEventDropRate := N } {}
        (List.replicate (j + 1) (TWTouchEvent.arrive ⟨i, PtState.move⟩))).2
      = (twTouchRun { touchMoveEventDropRate := N } {}
          (List.replicate j (TWTouchEvent.arrive ⟨i, PtState.move⟩))).2
        ++ (if N ≤ 1 ∨ j % N = 0 then [⟨i, PtState.move⟩] else [])) ∧
    ((fixGestureRun d { gestureChangeEventDropRate := N } {}
        (rotateStartMsg :: List.replicate (j + 1) (rotateChangeMsg 0))).2
      = (fixGestureRun d { gestureChangeEventDropRate := N } {}
          (rotateStartMsg :: List.replicate j (rotateChangeMsg 0))).2
        ++ (if j = 0 then [rotateFirstOutMsg]
            else if (j - 1) % N = 0 then [rotateChangeOutMsg] else [])) := by
  constructor
  · by_cases hN : N ≤ 1
    · rw [touchMove_all_forwarded N i hN, touchMove_all_forwarded N i hN,
        List.replicate_succ' j]
      simp [hN]
    · have h1 : 1 < N := by omega
      rcases Nat.eq_zero_or_pos j with hj | hj
      · subst hj
        simp [twTouchRun, runFold, twTouchStep, bufferTouchMessage, touchMoveStep,
          lookupEntry, setEntry, h1, hN]
      · rw [List.replicate_succ' j]
        have hs := touchMoveRunState N i h1 j hj
        unfold twTouchRun at hs ⊢
        rw [runFold_append, hs]
        have hmod : ((j - 1) % N + 1) % N = j % N := by
          have h2 : (j - 1) % N + 1 % N = (j - 1) % N + 1 := by rw [Nat.mod_eq_of_lt h1]
          rw [← h2, ← Nat.add_mod, Nat.sub_add_cancel hj]
        simp only [runFold, List.foldl_cons, List.foldl_nil, twTouchStep,
          bufferTouchMessage, touchMoveStep, h1, if_true]
        simp [lookupEntry, List.find?, hmod, hN]
  · rcases Nat.eq_zero_or_pos j with hj | hj
    · subst hj
      simp [fixGestureRun, runFold, fixGestureMessage, rotateStartMsg, rotateChangeMsg,
        rotateFirstOutMsg, jsAddQ, jsMulQ, lookupTicker, setTicker, dropBecauseOfDropRate]
    · rw [List.replicate_succ' j, ← List.cons_append]
      have hs := rotRunState d N j hj
      unfold fixGestureRun at hs ⊢
      rw [runFold_append, hs]
      by_cases hd : (j - 1) % N = 0
      · simp [runFold, fixGestureMessage, rotateChangeMsg, rotateChangeOutMsg, jsAddQ,
          jsMulQ, lookupTicker, setTicker, dropBecauseOfDropRate, List.find?,
          hd, Nat.pos_iff_ne_zero.mp hj]
      · simp [runFold, fixGestureMessage, rotateChangeMsg, jsAddQ, jsMulQ, lookupTicker,
          setTicker, dropBecauseOfDropRate, List.find?, hd, Nat.pos_iff_ne_zero.mp hj]

/-! Claim C3: accumulator correctness. -/

theorem fixG_scaleStart (d : ℚ) (o : TWOptions) (hm : o.mergeGestures = false)
    (st : GFixState) :
    fixGestureMessage d o st scaleStartMsg
      = ({ st with currentScaleFactor := some 1 }, [scaleStartOutMsg]) := by
  simp [fixGestureMessage, scaleStartMsg, scaleStartOutMsg, hm]

theorem fixG_scaleChange (d : ℚ) (o : TWOptions) (hm : o.mergeGestures = false)
    (st : GFixState) (f : ℚ) :
    fixGestureMessage d o st (scaleChangeMsg f)
      = ({ st with currentScaleFactor := jsMulQ st.currentScaleFactor (some f) },
         [scaleOutMsg (jsMulQ st.currentScaleFactor (some f))]) := by
  simp [fixGestureMessage, scaleChangeMsg, scaleOutMsg, hm]

theorem scaleRunAux (d : ℚ) (o : TWOptions) (hm : o.mergeGestures = false) :
    ∀ (fs : List ℚ) (st : GFixState) (c : ℚ), st.currentScaleFactor = some c →
      fixGestureRun d o st (fs.map scaleChangeMsg)
        = ({ st with currentScaleFactor := some (c * fs.prod) },
           (runningProds c fs).map (fun v => scaleOutMsg (some v))) := by
  intro fs
  induction fs with
  | nil =>
    intro st c hc
    have hst : ({ st with currentScaleFactor := some (c * List.prod []) } : GFixState) = st := by
      rw [List.prod_nil, mul_one, ← hc]
    rw [hst]
    simp [fixGestureRun, runFold, runningProds]
  | cons f fs ih =>
    intro st c hc
    rw [List.map_cons]
    unfold fixGestureRun at *
    rw [runFold_cons, fixG_scaleChange d o hm st f]
    simp only [hc, jsMulQ]
    rw [ih { st with currentScaleFactor := some (c * f) } (c * f) rfl]
    simp [runningProds, List.prod_cons, mul_assoc]

theorem runningProds_get (fs : List ℚ) :
    ∀ (c : ℚ) (k : ℕ), k < fs.length →
      (runningProds c fs)[k]? = some (c * (fs.take (k + 1)).prod) := by
  induction fs with
  | nil => intro c k h; simp at h
  | cons f fs ih =>
    intro c k h
    cases k with
    | zero => simp [runningProds]
    | succ k =>
      have hk : k < fs.length := by simpa using h
      simp only [runningProds, List.getElem?_cons_succ, List.take_succ_cons, List.prod_cons]
      rw [ih (c * f) k hk]
      rw [mul_assoc]

theorem fixG_rotStart_rot (d : ℚ) (o : TWOptions) (hm : o.mergeGestures = false)
    (st : GFixState) :
    (fixGestureMessage d o st rotateStartMsg).1.currentRotationInDegrees = some 0 := by
  simp [fixGestureMessage, rotateStartMsg, hm]

theorem fixG_rotChange_rot (d : ℚ) (o : TWOptions) (hm : o.mergeGestures = false)
    (st : GFixState) (r : ℚ) :
    (fixGestureMessage d o st (rotateChangeMsg r)).1.currentRotationInDegrees
      = jsAddQ st.currentRotationInDegrees (some (r * d)) := by
  cases hb : st.bufferedMessage <;>
    cases ht : lookupTicker st.gestureChangeTicker GType.rotate <;>
      simp [fixGestureMessage, rotateChangeMsg, jsMulQ, hm, hb, ht, dropBecauseOfDropRate,
        apply_ite]

theorem rotRunAux (d : ℚ) (o : TWOptions) (hm : o.mergeGestures = false) :
    ∀ (rs : List ℚ) (st : GFixState),
      (fixGestureRun d o st (rs.map rotateChangeMsg)).1.currentRotationInDegrees
        = jsAddQ st.currentRotationInDegrees (some ((rs.map (fun r => r * d)).sum)) := by
  intro rs
  induction rs with
  | nil =>
    intro st
    cases hc : st.currentRotationInDegrees <;> simp [fixGestureRun, runFold, jsAddQ, hc]
  | cons r rs ih =>
    intro st
    rw [List.map_cons]
    unfold fixGestureRun at *
    rw [runFold_cons]
    have := ih (fixGestureMessage d o st (rotateChangeMsg r)).1
    rw [this, fixG_rotChange_rot d o hm st r]
    cases hc : st.currentRotationInDegrees <;> simp [jsAddQ, hc, add_assoc]

/-- C3: accumulator correctness, in the unmerged mode in which the absolute
values are injected into the forwarded messages.  After a scale 'start' and
`n` scale 'change' messages with factors `fs`, the accumulator holds exactly
the product of the factors, and the k-th forwarded change message (position
k+1 of the output, after the forwarded start) carries the product of the
first k+1 factors.  After a rotate 'start' and 'change' messages with radian
deltas `rs`, the accumulator holds the sum of the converted deltas
`r * degPerRad`. -/
theorem C3_accumulators (d : ℚ) (o : TWOptions) (fs rs : List ℚ) :
    ((fixGestureRun d { o with mergeGestures := false } {}
        (scaleStartMsg :: fs.map scaleChangeMsg)).1.currentScaleFactor = some fs.prod) ∧
    (∀ k, k < fs.length →
      ((fixGestureRun d { o with mergeGestures := false } {}
          (scaleStartMsg :: fs.map scaleChangeMsg)).2)[k + 1]?
        = some (scaleOutMsg (some ((fs.take (k + 1)).prod)))) ∧
    ((fixGestureRun d { o with mergeGestures := false } {}
        (rotateStartMsg :: rs.map rotateChangeMsg)).1.currentRotationInDegrees
      = some ((rs.map (fun r => r * d)).sum)) := by
  have hm : ({ o with mergeGestures := false } : TWOptions).mergeGestures = false := rfl
  have hscale :
      fixGestureRun d { o with mergeGestures := false } {}
          (scaleStartMsg :: fs.map scaleChangeMsg)
        = ({ ({} : GFixState) with currentScaleFactor := some (1 * fs.prod) },
           scaleStartOutMsg :: (runningProds 1 fs).map (fun v => scaleOutMsg (some v))) := by
    unfold fixGestureRun
    rw [runFold_cons, fixG_scaleStart d _ hm]
    have := scaleRunAux d _ hm fs { ({} : GFixState) with currentScaleFactor := some 1 } 1 rfl
    unfold fixGestureRun at this
    rw [this]
    rfl
  refine ⟨?_, ?_, ?_⟩
  · rw [hscale]; simp
  · intro k hk
    rw [hscale]
    simp only [List.getElem?_cons_succ, List.getElem?_map, runningProds_get fs 1 k hk]
    simp
  · unfold fixGestureRun
    rw [runFold_cons]
    have := rotRunAux d _ hm rs (fixGestureMessage d { o with mergeGestures := false } {} rotateStartMsg).1
    unfold fixGestureRun at this
    rw [this, fixG_rotStart_rot d _ hm]
    simp [jsAddQ]

/-- C3 witness: the accumulator theorem applied to concrete factor and delta
lists — the product 2*3 and the converted sum (1 + 2) * 60. -/
theorem C3_accumulators_witness :
    ((fixGestureRun 60 { ({} : TWOptions) with mergeGestures := false } {}
        (scaleStartMsg :: ([2, 3] : List ℚ).map scaleChangeMsg)).1.currentScaleFactor
      = some 6) ∧
    (((fixGestureRun 60 { ({} : TWOptions) with mergeGestures := false } {}
        (scaleStartMsg :: ([2, 3] : List ℚ).map scaleChangeMsg)).2)[1]?
      = some (scaleOutMsg (some 2))) ∧
    ((fixGestureRun 60 { ({} : TWOptions) with mergeGestures := false } {}
        (rotateStartMsg :: ([1, 2] : List ℚ).map rotateChangeMsg)).1.currentRotationInDegrees
      = some 180) := by
  have hh := C3_accumulators 60 {} [2, 3] [1, 2]
  refine ⟨?_, ?_, ?_⟩
  · have := hh.1
    rw [this]
    norm_num
  · have := hh.2.1 0 (by norm_num)
    rw [this]
    norm_num
  · have := hh.2.2
    rw [this]
    norm_num

/-! Claim C2: compound-gesture merge. -/

theorem mergePre_scaleChange (d : ℚ) (o : TWOptions) (h : o.mergeGestures = true)
    (st : GFixState) (m : GMsg)
    (hg : m.gestureType = GType.scale) (hst : m.state = some GState.change)
    (hp : MergePre st) :
    (fixGestureMessage d o st m).2 = [] ∧ MergePre (fixGestureMessage d o st m).1 := by
  obtain ⟨h1, h2, h3, h4, ⟨b, hb, hbs, hbg⟩, hls, hlr⟩ := hp
  refine ⟨?_, ?_, ?_, ?_, ?_, ⟨b, ?_, hbs, hbg⟩, ?_, ?_⟩ <;>
    simp [fixGestureMessage, MergePre, h, hg, hst, h1, h2, h3, h4, hb, hls, hlr]

theorem mergePre_rotateChange (d : ℚ) (o : TWOptions) (h : o.mergeGestures = true)
    (st : GFixState) (m : GMsg)
    (hg : m.gestureType = GType.rotate) (hst : m.state = some GState.change)
    (hp : MergePre st) :
    countState (fixGestureMessage d o st m).2 GState.start = 1 ∧
    countState (fixGestureMessage d o st m).2 GState.end' = 0 ∧
    (∀ x ∈ (fixGestureMessage d o st m).2, x.gestureType = GType.gesture) ∧
    MergePost (fixGestureMessage d o st m).1 := by
  obtain ⟨h1, h2, h3, h4, ⟨b, hb, hbs, hbg⟩, hls, hlr⟩ := hp
  obtain ⟨ls, hls'⟩ := Option.isSome_iff_exists.mp hls
  refine ⟨?_, ?_, ?_, ?_, ?_, ?_, ?_, ?_, ?_, ?_⟩ <;>
    simp [fixGestureMessage, countState, buildMessageFromLastGestureMessages, h, hg, hst,
      h1, h2, h3, h4, hb, hbs, hbg, hls', hlr]

theorem mergePost_change (d : ℚ) (o : TWOptions) (h : o.mergeGestures = true)
    (st : GFixState) (m : GMsg)
    (hg : m.gestureType = GType.scale ∨ m.gestureType = GType.rotate)
    (hst : m.state = some GState.change) (hp : MergePost st) :
    countState (fixGestureMessage d o st m).2 GState.start = 0 ∧
    countState (fixGestureMessage d o st m).2 GState.end' = 0 ∧
    (∀ x ∈ (fixGestureMessage d o st m).2, x.gestureType = GType.gesture) ∧
    MergePost (fixGestureMessage d o st m).1 := by
  obtain ⟨h1, h2, h3, h4, hb, hls, hlr⟩ := hp
  obtain ⟨ls, hls'⟩ := Option.isSome_iff_exists.mp hls
  obtain ⟨lr, hlr'⟩ := Option.isSome_iff_exists.mp hlr
  rcases hg with hg | hg <;>
    refine ⟨?_, ?_, ?_, ?_, ?_, ?_, ?_, ?_, ?_, ?_⟩ <;>
      simp [fixGestureMessage, countState, buildMessageFromLastGestureMessages, h, hg, hst,
        h1, h2, h3, h4, hb, hls', hlr']

theorem mergePre_end (d : ℚ) (o : TWOptions) (h : o.mergeGestures = true)
    (st : GFixState) (m : GMsg)
    (hg : m.gestureType = GType.scale ∨ m.gestureType = GType.rotate)
    (hst : m.state = some GState.end') (hp : MergePre st) :
    (fixGestureMessage d o st m).2 = [] ∧ MergeIdle (fixGestureMessage d o st m).1 := by
  obtain ⟨h1, h2, h3, h4, ⟨b, hb, hbs, hbg⟩, hls, hlr⟩ := hp
  rcases hg with hg | hg <;>
    refine ⟨?_, ?_, ?_, ?_, ?_⟩ <;>
      simp [fixGestureMessage, MergeIdle, resetMergeState, h, hg, hst, h1, h2, h3, h4, hb]

theorem mergePost_end (d : ℚ) (o : TWOptions) (h : o.mergeGestures = true)
    (st : GFixState) (m : GMsg)
    (hg : m.gestureType = GType.scale ∨ m.gestureType = GType.rotate)
    (hst : m.state = some GState.end') (hp : MergePost st) :
    countState (fixGestureMessage d o st m).2 GState.start = 0 ∧
    countState (fixGestureMessage d o st m).2 GState.end' = 1 ∧
    (∀ x ∈ (fixGestureMessage d o st m).2, x.gestureType = GType.gesture) ∧
    MergeIdle (fixGestureMessage d o st m).1 := by
  obtain ⟨h1, h2, h3, h4, hb, hls, hlr⟩ := hp
  obtain ⟨ls, hls'⟩ := Option.isSome_iff_exists.mp hls
  obtain ⟨lr, hlr'⟩ := Option.isSome_iff_exists.mp hlr
  rcases hg with hg | hg <;>
    refine ⟨?_, ?_, ?_, ?_, ?_, ?_, ?_⟩ <;>
      simp [fixGestureMessage, countState, buildMessageFromLastGestureMessages,
        resetMergeState, h, hg, hst, h1, h2, h3, h4, hb, hls', hlr']

theorem mergeIdle_nonStart (d : ℚ) (o : TWOptions) (h : o.mergeGestures = true)
    (st : GFixState) (m : GMsg)
    (hg : m.gestureType = GType.scale ∨ m.gestureType = GType.rotate)
    (hst : m.state = some GState.change ∨ m.state = some GState.end')
    (hp : MergeIdle st) :
    (fixGestureMessage d o st m).2 = [] ∧ MergeIdle (fixGestureMessage d o st m).1 := by
  obtain ⟨h1, h2, h3, h4⟩ := hp
  rcases hg with hg | hg <;> rcases hst with hst | hst <;>
    refine ⟨?_, ?_, ?_, ?_, ?_⟩ <;>
      simp [fixGestureMessage, MergeIdle, resetMergeState, h, hg, hst, h1, h2, h3, h4]

theorem mergeIdle_scaleStart (d : ℚ) (o : TWOptions) (h : o.mergeGestures = true)
    (st : GFixState) (m : GMsg)
    (hg : m.gestureType = GType.scale) (hst : m.state = some GState.start)
    (hp : MergeIdle st) :
    (fixGestureMessage d o st m).2 = [] ∧ MergeHalfS (fixGestureMessage d o st m).1 := by
  obtain ⟨h1, h2, h3, h4⟩ := hp
  refine ⟨?_, ?_, ?_, ?_, ?_, ?_⟩ <;>
    simp [fixGestureMessage, MergeHalfS, h, hg, hst, h1, h2, h3, h4]

theorem mergeIdle_rotateStart (d : ℚ) (o : TWOptions) (h : o.mergeGestures = true)
    (st : GFixState) (m : GMsg)
    (hg : m.gestureType = GType.rotate) (hst : m.state = some GState.start)
    (hp : MergeIdle st) :
    (fixGestureMessage d o st m).2 = [] ∧ MergeHalfR (fixGestureMessage d o st m).1 := by
  obtain ⟨h1, h2, h3, h4⟩ := hp
  refine ⟨?_, ?_, ?_, ?_, ?_, ?_⟩ <;>
    simp [fixGestureMessage, MergeHalfR, h, hg, hst, h1, h2, h3, h4]

theorem mergeHalfS_rotateStart (d : ℚ) (o : TWOptions) (h : o.mergeGestures = true)
    (st : GFixState) (m : GMsg)
    (hg : m.gestureType = GType.rotate) (hst : m.state = some GState.start)
    (hp : MergeHalfS st) :
    (fixGestureMessage d o st m).2 = [] ∧ MergePre (fixGestureMessage d o st m).1 := by
  obtain ⟨h1, h2, h3, h4, hls⟩ := hp
  obtain ⟨ls, hls'⟩ := Option.isSome_iff_exists.mp hls
  refine ⟨?_, ?_, ?_, ?_, ?_, ?_, ?_, ?_⟩ <;>
    simp [fixGestureMessage, MergePre, buildMessageFromLastGestureMessages, h, hg, hst,
      h1, h2, h3, h4, hls']

theorem mergeHalfR_scaleStart (d : ℚ) (o : TWOptions) (h : o.mergeGestures = true)
    (st : GFixState) (m : GMsg)
    (hg : m.gestureType = GType.scale) (hst : m.state = some GState.start)
    (hp : MergeHalfR st) :
    (fixGestureMessage d o st m).2 = [] ∧ MergePre (fixGestureMessage d o st m).1 := by
  obtain ⟨h1, h2, h3, h4, hlr⟩ := hp
  obtain ⟨lr, hlr'⟩ := Option.isSome_iff_exists.mp hlr
  refine ⟨?_, ?_, ?_, ?_, ?_, ?_, ?_, ?_⟩ <;>
    simp [fixGestureMessage, MergePre, buildMessageFromLastGestureMessages, h, hg, hst,
      h1, h2, h3, h4, hlr']

theorem countState_append (a b : List GMsg) (s : GState) :
    countState (a ++ b) s = countState a s + countState b s :=
  List.countP_append _ _ _

theorem isScaleChangeB_iff (m : GMsg) :
    isScaleChangeB m = true ↔ m.gestureType = GType.scale ∧ m.state = some GState.change := by
  simp [isScaleChangeB]

theorem isRotateChangeB_iff (m : GMsg) :
    isRotateChangeB m = true ↔ m.gestureType = GType.rotate ∧ m.state = some GState.change := by
  simp [isRotateChangeB]

theorem mergeChangesPost (d : ℚ) (o : TWOptions) (h : o.mergeGestures = true) :
    ∀ (cs : List GMsg), (∀ m ∈ cs, isScaleChangeB m = true ∨ isRotateChangeB m = true) →
      ∀ st, MergePost st →
        countState (fixGestureRun d o st cs).2 GState.start = 0 ∧
        countState (fixGestureRun d o st cs).2 GState.end' = 0 ∧
        (∀ x ∈ (fixGestureRun d o st cs).2, x.gestureType = GType.gesture) ∧
        MergePost (fixGestureRun d o st cs).1 := by
  intro cs
  induction cs with
  | nil =>
    intro _ st hp
    refine ⟨rfl, rfl, ?_, hp⟩
    simp [fixGestureRun, runFold]
  | cons c t ih =>
    intro hw st hp
    have hc := hw c (List.mem_cons_self c t)
    have hg : c.gestureType = GType.scale ∨ c.gestureType = GType.rotate := by
      rcases hc with hc | hc
      · exact Or.inl ((isScaleChangeB_iff c).mp hc).1
      · exact Or.inr ((isRotateChangeB_iff c).mp hc).1
    have hst : c.state = some GState.change := by
      rcases hc with hc | hc
      · exact ((isScaleChangeB_iff c).mp hc).2
      · exact ((isRotateChangeB_iff c).mp hc).2
    have step := mergePost_change d o h st c hg hst hp
    have rest := ih (fun m hm => hw m (List.mem_cons_of_mem c hm))
      (fixGestureMessage d o st c).1 step.2.2.2
    unfold fixGestureRun at *
    rw [runFold_cons]
    refine ⟨?_, ?_, ?_, rest.2.2.2⟩
    · simp only [countState_append, step.1, rest.1]
    · simp only [countState_append, step.2.1, rest.2.1]
    · intro x hx
      rcases List.mem_append.mp hx with hx | hx
      · exact step.2.2.1 x hx
      · exact rest.2.2.1 x hx

theorem mergeChangesPre (d : ℚ) (o : TWOptions) (h : o.mergeGestures = true) :
    ∀ (cs : List GMsg), (∀ m ∈ cs, isScaleChangeB m = true ∨ isRotateChangeB m = true) →
      ∀ st, MergePre st →
        countState (fixGestureRun d o st cs).2 GState.start
            = (if cs.any isRotateChangeB then 1 else 0) ∧
        countState (fixGestureRun d o st cs).2 GState.end' = 0 ∧
        (∀ x ∈ (fixGestureRun d o st cs).2, x.gestureType = GType.gesture) ∧
        (if cs.any isRotateChangeB then MergePost (fixGestureRun d o st cs).1
          else MergePre (fixGestureRun d o st cs).1) := by
  intro cs
  induction cs with
  | nil =>
    intro _ st hp
    refine ⟨rfl, rfl, ?_, hp⟩
    simp [fixGestureRun, runFold]
  | cons c t ih =>
    intro hw st hp
    have hc := hw c (List.mem_cons_self c t)
    rcases hc with hc | hc
    · -- head is a scale change: nothing forwarded, invariant preserved
      obtain ⟨hg, hst⟩ := (isScaleChangeB_iff c).mp hc
      have hnr : isRotateChangeB c = false := by
        simp [isRotateChangeB, hg]
      have step := mergePre_scaleChange d o h st c hg hst hp
      have rest := ih (fun m hm => hw m (List.mem_cons_of_mem c hm))
        (fixGestureMessage d o st c).1 step.2
      unfold fixGestureRun at *
      rw [runFold_cons]
      rw [List.any_cons, hnr, Bool.false_or]
      refine ⟨?_, ?_, ?_, ?_⟩
      · rw [step.1, List.nil_append]; exact rest.1
      · rw [step.1, List.nil_append]; exact rest.2.1
      · intro x hx
        rw [step.1, List.nil_append] at hx
        exact rest.2.2.1 x hx
      · exact rest.2.2.2
    · -- head is the first rotate change: the buffered compound start is released
      obtain ⟨hg, hst⟩ := (isRotateChangeB_iff c).mp hc
      have hr : isRotateChangeB c = true := hc
      have step := mergePre_rotateChange d o h st c hg hst hp
      have rest := mergeChangesPost d o h t (fun m hm => hw m (List.mem_cons_of_mem c hm))
        (fixGestureMessage d o st c).1 step.2.2.2
      unfold fixGestureRun at *
      rw [runFold_cons]
      rw [List.any_cons, hr, Bool.true_or]
      refine ⟨?_, ?_, ?_, ?_⟩
      · simp only [countState_append, step.1, rest.1, if_true]
      · simp only [countState_append, step.2.1, rest.2.1, if_true]
      · intro x hx
        rcases List.mem_append.mp hx with hx | hx
        · exact step.2.2.1 x hx
        · exact rest.2.2.1 x hx
      · exact rest.2.2.2

/-- C2 counterexample: a merge episode in which both sub-streams deliver
their 'start' but the episode ends before any rotate 'change' arrives.  The
claim requires exactly one compound start and one compound end, but zero
messages of either kind are forwarded: the buffered compound start is
discarded by the teardown, and the compound end is suppressed because
`readyToSendChangeEvents` never became true. -/
theorem C2_counterexample :
    countState (fixGestureRun 60 { mergeGestures := true } {}
      [scaleStartMsg, rotateStartMsg, scaleEndMsg, rotateEndMsg]).2 GState.start = 0 ∧
    countState (fixGestureRun 60 { mergeGestures := true } {}
      [scaleStartMsg, rotateStartMsg, scaleEndMsg, rotateEndMsg]).2 GState.end' = 0 := by
  decide

/-- C2 (amended): for a merge episode consisting of the two sub-stream
starts (in either order), then any interleaving of scale/rotate 'change'
messages, then the two ends (in either order), the number of compound
'start' messages and the number of compound 'end' messages forwarded are
each exactly one IF at least one rotate 'change' arrived (which releases the
buffered compound start carrying the pivot), and each exactly zero
otherwise; every forwarded message is a compound ('gesture') message. -/
theorem C2_merge_amended (d : ℚ) (o : TWOptions) (h : o.mergeGestures = true)
    (st0 : GFixState) (hidle : MergeIdle st0) (swap : Bool)
    (s r : GMsg) (hsg : s.gestureType = GType.scale) (hss : s.state = some GState.start)
    (hrg : r.gestureType = GType.rotate) (hrs : r.state = some GState.start)
    (cs : List GMsg) (hcs : ∀ m ∈ cs, isScaleChangeB m = true ∨ isRotateChangeB m = true)
    (e1 e2 : GMsg)
    (he1g : e1.gestureType = GType.scale ∨ e1.gestureType = GType.rotate)
    (he1s : e1.state = some GState.end')
    (he2g : e2.gestureType = GType.scale ∨ e2.gestureType = GType.rotate)
    (he2s : e2.state = some GState.end') :
    countState (fixGestureRun d o st0
        ((if swap then [r, s] else [s, r]) ++ cs ++ [e1, e2])).2 GState.start
      = (if cs.any isRotateChangeB then 1 else 0) ∧
    countState (fixGestureRun d o st0
        ((if swap then [r, s] else [s, r]) ++ cs ++ [e1, e2])).2 GState.end'
      = (if cs.any isRotateChangeB then 1 else 0) ∧
    (∀ x ∈ (fixGestureRun d o st0
        ((if swap then [r, s] else [s, r]) ++ cs ++ [e1, e2])).2,
      x.gestureType = GType.gesture) := by
  have hstarts : (fixGestureRun d o st0 (if swap then [r, s] else [s, r])).2 = [] ∧
      MergePre (fixGestureRun d o st0 (if swap then [r, s] else [s, r])).1 := by
    cases swap
    · have s1 := mergeIdle_scaleStart d o h st0 s hsg hss hidle
      have s2 := mergeHalfS_rotateStart d o h (fixGestureMessage d o st0 s).1 r hrg hrs s1.2
      unfold fixGestureRun
      rw [if_neg (by simp), runFold_cons, runFold_cons]
      simp only [runFold, List.foldl_nil, List.append_nil]
      exact ⟨by rw [s1.1, s2.1]; simp, s2.2⟩
    · have s1 := mergeIdle_rotateStart d o h st0 r hrg hrs hidle
      have s2 := mergeHalfR_scaleStart d o h (fixGestureMessage d o st0 r).1 s hsg hss s1.2
      unfold fixGestureRun
      rw [if_pos rfl, runFold_cons, runFold_cons]
      simp only [runFold, List.foldl_nil, List.append_nil]
      exact ⟨by rw [s1.1, s2.1]; simp, s2.2⟩
  have hchanges := mergeChangesPre d o h cs hcs
    (fixGestureRun d o st0 (if swap then [r, s] else [s, r])).1 hstarts.2
  unfold fixGestureRun at *
  rw [runFold_append, runFold_append, hstarts.1]
  rw [List.nil_append]
  by_cases hany : cs.any isRotateChangeB = true
  · rw [hany] at hchanges ⊢
    simp only [if_true] at hchanges ⊢
    have he1 := mergePost_end d o h _ e1 he1g he1s hchanges.2.2.2
    have he2 := mergeIdle_nonStart d o h _ e2 he2g (Or.inr he2s) he1.2.2.2
    rw [show ([e1, e2] : List GMsg) = e1 :: [e2] from rfl, runFold_cons, runFold_singleton]
    refine ⟨?_, ?_, ?_⟩
    · rw [countState_append, countState_append, hchanges.1, he1.1, he2.1]
      rfl
    · rw [countState_append, countState_append, hchanges.2.1, he1.2.1, he2.1]
      rfl
    · intro x hx
      rcases List.mem_append.mp hx with hx | hx
      · exact hchanges.2.2.1 x hx
      · rcases List.mem_append.mp hx with hx | hx
        · exact he1.2.2.1 x hx
        · rw [he2.1] at hx
          simp at hx
  · rw [Bool.not_eq_true] at hany
    rw [hany] at hchanges ⊢
    simp only [Bool.false_eq_true, if_false] at hchanges ⊢
    have he1 := mergePre_end d o h _ e1 he1g he1s hchanges.2.2.2
    have he2 := mergeIdle_nonStart d o h _ e2 he2g (Or.inr he2s) he1.2
    rw [show ([e1, e2] : List GMsg) = e1 :: [e2] from rfl, runFold_cons, runFold_singleton]
    refine ⟨?_, ?_, ?_⟩
    · rw [countState_append, countState_append, hchanges.1, he1.1, he2.1]
      rfl
    · rw [countState_append, countState_append, hchanges.2.1, he1.1, he2.1]
      rfl
    · intro x hx
      rcases List.mem_append.mp hx with hx | hx
      · exact hchanges.2.2.1 x hx
      · rcases List.mem_append.mp hx with hx | hx
        · rw [he1.1] at hx
          simp at hx
        · rw [he2.1] at hx
          simp at hx

/-- C2 witness: the amended theorem applied to a concrete episode with one
rotate change — exactly one compound start and one compound end. -/
theorem C2_merge_amended_witness :
    countState (fixGestureRun 60 { mergeGestures := true } {}
        ([scaleStartMsg, rotateStartMsg] ++ [rotateChangeMsg 0] ++ [scaleEndMsg, rotateEndMsg])).2
      GState.start = 1 ∧
    countState (fixGestureRun 60 { mergeGestures := true } {}
        ([scaleStartMsg, rotateStartMsg] ++ [rotateChangeMsg 0] ++ [scaleEndMsg, rotateEndMsg])).2
      GState.end' = 1 := by
  have hh := C2_merge_amended 60 { mergeGestures := true } rfl {} ⟨rfl, rfl, rfl, rfl⟩ false
    scaleStartMsg rotateStartMsg rfl rfl rfl rfl [rotateChangeMsg 0]
    (fun m hm => by rw [List.mem_singleton] at hm; subst hm; exact Or.inr (by decide))
    scaleEndMsg rotateEndMsg (Or.inl rfl) rfl (Or.inr rfl) rfl
  have h1 := hh.1
  have h2 := hh.2.1
  simp only [Bool.false_eq_true, if_false, List.any_cons, List.any_nil] at h1 h2
  constructor
  · simpa [isRotateChangeB, rotateChangeMsg] using h1
  · simpa [isRotateChangeB, rotateChangeMsg] using h2

end TuioJSON
